import Mathlib

/-
Verification of the pipeline board's optimistic state-synchronization engine
of the DealFlow_VC client, embedded shallowly from
src/dealflow-ui/src/app/pipeline/page.tsx.

The page component keeps five pieces of React state: the board (a record
mapping stage ids to deal lists), the per-stage counts record, the two
aggregates totalDeals and activeDeals, the loading flag, and the drag
session (draggedDeal, dragSourceStage). The embedding models one
event-handling turn as a pure function on that state; the asynchronous
network outcomes (the PUT result of the stage update and the result of the
reconciliation GET) are passed in as explicit parameters, so the final
state of a whole drop interaction is a function of the initial state and
those outcomes.

Stage identifiers are the eight ids of STAGE_CONFIGS; every drag-start and
drop event produced by the view carries one of them (columns are rendered
from STAGE_CONFIGS), so records keyed by stage id are modelled as total
functions on the eight-element Stage type, with a missing key represented
by the empty list respectively zero, which is exactly how the source reads
them (board[s] or [], counts[s] or 0 via JavaScript truthiness).
-/

namespace DealFlow

/-- The eight stage ids of STAGE_CONFIGS in display order (page.tsx lines
23-32). -/
inductive Stage where
  | new
  | screening
  | diligence
  | ic_review
  | term_sheet
  | closed_won
  | closed_lost
  | passed
deriving DecidableEq, Repr, Fintype

/-- The fixed ordered list of stages, mirroring STAGE_CONFIGS order. -/
def allStages : List Stage :=
  [Stage.new, Stage.screening, Stage.diligence, Stage.ic_review,
   Stage.term_sheet, Stage.closed_won, Stage.closed_lost, Stage.passed]

/-- Modelled from the spec: the data model makes no stage intrinsically
terminal, and the code nowhere computes a terminal set; the spec (section 3)
says the UI treats the last three stages as terminal and defines
activeDeals as the deals in non-terminal stages. Used only to state the
aggregate invariant of C4. -/
def isTerminal : Stage → Bool
  | Stage.closed_won => true
  | Stage.closed_lost => true
  | Stage.passed => true
  | _ => false

/-- A pipeline deal (interface PipelineDeal in the types module): the fields
the engine reads or writes, plus representative carried-along fields. The
drop handler reads only analysis_id and writes only stage; all other fields
are copied unchanged by the object spread. -/
structure PipelineDeal where
  analysis_id : String
  company_name : String
  stage : Stage
  priority : String
  tags : List String
deriving DecidableEq, Repr

/-- JavaScript truthiness fallback for numbers in our integer model:
c or-else d is d when c is 0 (falsy) and c otherwise. A missing record key
is modelled as 0, which the same fallback also sends to d, matching
undefined being falsy. -/
def jsOrInt (c d : Int) : Int := if c = 0 then d else c

/-- The React state of PipelinePage (page.tsx lines 35-41). -/
structure PageState where
  board : Stage → List PipelineDeal
  counts : Stage → Int
  totalDeals : Int
  activeDeals : Int
  loading : Bool
  draggedDeal : Option PipelineDeal
  dragSourceStage : Option Stage

/-- The wire payload of GET pipeline/ as read by fetchPipelineData
(page.tsx lines 53-57). Option models a field that may be absent from the
JSON, each read through a falsy-default fallback in the source. -/
structure PipelinePayload where
  board : Option (Stage → List PipelineDeal)
  counts : Option (Stage → Int)
  total_deals : Option Int
  active_deals : Option Int

/-- Outcome of the reconciliation fetch: success carries the decoded
payload; failure covers both a non-ok response status (which throws at
line 51) and a network error, both landing in the catch block. -/
inductive FetchResult where
  | success (data : PipelinePayload)
  | failure

/-- Outcome of the PUT pipeline/dealId/stage request: ok is a 2xx
response, httpError a non-ok response (line 107), transportError a
rejected fetch (line 111). -/
inductive PutResult where
  | ok
  | httpError
  | transportError
deriving DecidableEq, Repr

/-- fetchPipelineData (page.tsx lines 47-63): on success replaces board,
counts, totalDeals and activeDeals with the payload fields, each through
its falsy-default fallback (or empty-object, or zero); on failure (throw on
non-ok status, or network error) only logs, leaving all board state
unchanged. The finally clause sets loading to false on every path. -/
def fetchPipelineData (s : PageState) (r : FetchResult) : PageState :=
  match r with
  | FetchResult.success data =>
    { s with
      board := data.board.getD (fun _ => [])
      counts := data.counts.getD (fun _ => 0)
      totalDeals := data.total_deals.getD 0
      activeDeals := data.active_deals.getD 0
      loading := false }
  | FetchResult.failure => { s with loading := false }

/-- handleDragStart (page.tsx lines 65-68): records the drag session,
overwriting any prior one. -/
def handleDragStart (s : PageState) (deal : PipelineDeal) (stageId : Stage) :
    PageState :=
  { s with draggedDeal := some deal, dragSourceStage := some stageId }

/-- A drag released outside any drop column. The page registers no dragend
or drag-cancel handler anywhere: the card element sets only draggable and
onDragStart (line 213-214), and columns set only onDragOver and onDrop
(lines 169-170). A cancelled drag therefore triggers no state update at
all; the event is modelled as the identity on the component state. -/
def handleDragCancel (s : PageState) : PageState := s

/-- Clearing the drag session: setDraggedDeal(null);
setDragSourceStage(null). -/
def clearSession (s : PageState) : PageState :=
  { s with draggedDeal := none, dragSourceStage := none }

/-- The synchronous optimistic update of handleDrop (page.tsx lines
81-98): filter the dragged deal's analysis_id out of the source bucket,
append a stage-rewritten copy of the dragged deal to the target bucket,
then set the source count to its truthy-or-1 fallback minus one and the
target count to its truthy-or-0 fallback plus one. Record writes are
sequential, the target read seeing the source write, exactly as in the
source. totalDeals and activeDeals are not touched. -/
def applyOptimistic (s : PageState) (d : PipelineDeal) (src target : Stage) :
    PageState :=
  let entryId := d.analysis_id
  let board1 := fun st =>
    if st = src then (s.board src).filter (fun x => x.analysis_id != entryId)
    else s.board st
  let board2 := fun st =>
    if st = target then board1 target ++ [{ d with stage := target }]
    else board1 st
  let counts1 := fun st =>
    if st = src then jsOrInt (s.counts src) 1 - 1 else s.counts st
  let counts2 := fun st =>
    if st = target then counts1 target + 1 else counts1 st
  { s with board := board2, counts := counts2 }

/-- The part of handleDrop that runs synchronously before the first await
(page.tsx lines 74-98): the guard clears the session and returns early
when there is no dragged deal, no recorded source stage, or the target
equals the source; otherwise the optimistic update is applied (the session
is cleared only later, in the finally clause). The boolean reports whether
execution proceeds to the network request. -/
def handleDropSync (s : PageState) (targetStageId : Stage) :
    PageState × Bool :=
  match s.draggedDeal, s.dragSourceStage with
  | some d, some src =>
    if src = targetStageId then (clearSession s, false)
    else (applyOptimistic s d src targetStageId, true)
  | _, _ => (clearSession s, false)

/-- The observable outcome of a whole drop interaction: the final
component state, whether a PUT stage-update request was issued, and
whether a reconciliation GET was issued. -/
structure DropOutcome where
  state : PageState
  putSent : Bool
  fetchSent : Bool

/-- handleDrop in full (page.tsx lines 74-118), as a function of the two
asynchronous outcomes. After the synchronous part, if a PUT was issued: on
ok nothing further mutates the board; on a non-ok status or a transport
error, fetchPipelineData runs against the reload outcome. The finally
clause clears the session on every path. The early-return path issues no
request at all. -/
def handleDrop (s : PageState) (targetStageId : Stage) (put : PutResult)
    (reload : FetchResult) : DropOutcome :=
  let (s1, proceed) := handleDropSync s targetStageId
  if proceed then
    match put with
    | PutResult.ok => ⟨clearSession s1, true, false⟩
    | PutResult.httpError =>
        ⟨clearSession (fetchPipelineData s1 reload), true, true⟩
    | PutResult.transportError =>
        ⟨clearSession (fetchPipelineData s1 reload), true, true⟩
  else ⟨s1, false, false⟩

/-- Sum of the counts record over all stages, the totalDeals aggregate of
the data-model invariant. -/
def totalCounts (c : Stage → Int) : Int := (allStages.map c).sum

/-- Sum of the counts record over non-terminal stages, the activeDeals
aggregate of the data-model invariant. -/
def activeCounts (c : Stage → Int) : Int :=
  ((allStages.filter (fun st => !isTerminal st)).map c).sum

/-- Membership of a deal id in a bucket, as the drop handler's filter sees
it. -/
def bucketHasId (l : List PipelineDeal) (i : String) : Bool :=
  l.any (fun d => d.analysis_id == i)

/-! Concrete sample data used by counterexamples and witnesses. -/

/-- The everywhere-empty board record. -/
def emptyBoard : Stage → List PipelineDeal := fun _ => []

/-- The everywhere-zero counts record. -/
def zeroCounts : Stage → Int := fun _ => 0

/-- A sample deal sitting in the New stage. -/
def dealA : PipelineDeal :=
  { analysis_id := "a1", company_name := "Acme Robotics", stage := Stage.new,
    priority := "high", tags := ["ai"] }

/-- A board whose New bucket holds dealA and whose other buckets are
empty. -/
def boardNewA : Stage → List PipelineDeal :=
  fun st => if st = Stage.new then [dealA] else []

/-- Counts consistent with boardNewA. -/
def countsNew1 : Stage → Int := fun st => if st = Stage.new then 1 else 0

/-- Counts claiming five deals in New, inconsistent with boardNewA. -/
def countsNew5 : Stage → Int := fun st => if st = Stage.new then 5 else 0

/-- A fully consistent state mid-drag: dealA is in the New bucket and is
being dragged from New. -/
def stateConsistent : PageState :=
  { board := boardNewA, counts := countsNew1, totalDeals := 1,
    activeDeals := 1, loading := false, draggedDeal := some dealA,
    dragSourceStage := some Stage.new }

/-- A stale-session state: dealA is recorded as dragged from New but the
New bucket is empty. -/
def stateStale : PageState :=
  { board := emptyBoard, counts := zeroCounts, totalDeals := 0,
    activeDeals := 0, loading := false, draggedDeal := some dealA,
    dragSourceStage := some Stage.new }

/-- A wire-skewed state mid-drag: dealA is in the New bucket but the
counts record (taken from the payload) says zero everywhere. -/
def stateZeroCount : PageState :=
  { board := boardNewA, counts := zeroCounts, totalDeals := 1,
    activeDeals := 1, loading := false, draggedDeal := some dealA,
    dragSourceStage := some Stage.new }

/-- A state with no drag session. -/
def stateNoSession : PageState :=
  { board := boardNewA, counts := countsNew1, totalDeals := 1,
    activeDeals := 1, loading := false, draggedDeal := none,
    dragSourceStage := none }

/-- A consistent wire payload. -/
def payloadGood : PipelinePayload :=
  { board := some boardNewA, counts := some countsNew1,
    total_deals := some 1, active_deals := some 1 }

/-- A payload whose counts record disagrees with its buckets. -/
def payloadSkewed : PipelinePayload :=
  { board := some boardNewA, counts := some countsNew5,
    total_deals := some 1, active_deals := some 1 }

/-! Claim C5: a drag released outside any drop target. -/

/-- C5 counterexample: from a state with an active drag session, a drag
cancel leaves the session fully populated — the claim that cancellation
clears the drag session is false, because the page registers no
drag-cancel handler. -/
theorem C5_cancel_counterexample :
    stateConsistent.draggedDeal = some dealA ∧
    (handleDragCancel stateConsistent).draggedDeal = some dealA ∧
    (handleDragCancel stateConsistent).draggedDeal ≠ none ∧
    (handleDragCancel stateConsistent).dragSourceStage ≠ none := by
  refine ⟨rfl, rfl, ?_, ?_⟩ <;> simp [handleDragCancel, stateConsistent]

/-- C5 amended: a drag released outside any valid drop target triggers no
handler at all, so it performs no board or count mutation and makes no
network call, but it also does not clear the drag session: the whole
component state, the session included, is exactly unchanged. -/
theorem C5_cancel_changes_nothing (s : PageState) :
    handleDragCancel s = s ∧
    (handleDragCancel s).board = s.board ∧
    (handleDragCancel s).counts = s.counts ∧
    (handleDragCancel s).draggedDeal = s.draggedDeal ∧
    (handleDragCancel s).dragSourceStage = s.dragSourceStage :=
  ⟨rfl, rfl, rfl, rfl, rfl⟩

/-! Claim C6: drop on the source stage is a pure cancel. -/

/-- C6: dropping a deal on its own source stage changes nothing: the board
record (hence every bucket and every deal's stage field), the counts
record and both aggregates are unchanged, no stage-update request and no
reconciliation fetch is issued, and the drag session is cleared. -/
theorem C6_drop_on_source_is_noop (s : PageState) (d : PipelineDeal)
    (src : Stage) (put : PutResult) (reload : FetchResult)
    (hd : s.draggedDeal = some d) (hs : s.dragSourceStage = some src) :
    (handleDrop s src put reload).state.board = s.board ∧
    (handleDrop s src put reload).state.counts = s.counts ∧
    (handleDrop s src put reload).state.totalDeals = s.totalDeals ∧
    (handleDrop s src put reload).state.activeDeals = s.activeDeals ∧
    (handleDrop s src put reload).state.draggedDeal = none ∧
    (handleDrop s src put reload).state.dragSourceStage = none ∧
    (handleDrop s src put reload).putSent = false ∧
    (handleDrop s src put reload).fetchSent = false := by
  simp [handleDrop, handleDropSync, hd, hs, clearSession]

/-- C6 witness: the no-op drop theorem instantiated at the consistent
sample state, dropping dealA back onto New. -/
theorem C6_drop_on_source_witness :
    stateConsistent.draggedDeal = some dealA ∧
    stateConsistent.dragSourceStage = some Stage.new ∧
    ((handleDrop stateConsistent Stage.new PutResult.ok
        FetchResult.failure).state.board = stateConsistent.board ∧
      (handleDrop stateConsistent Stage.new PutResult.ok
        FetchResult.failure).state.counts = stateConsistent.counts ∧
      (handleDrop stateConsistent Stage.new PutResult.ok
        FetchResult.failure).state.totalDeals = stateConsistent.totalDeals ∧
      (handleDrop stateConsistent Stage.new PutResult.ok
        FetchResult.failure).state.activeDeals = stateConsistent.activeDeals ∧
      (handleDrop stateConsistent Stage.new PutResult.ok
        FetchResult.failure).state.draggedDeal = none ∧
      (handleDrop stateConsistent Stage.new PutResult.ok
        FetchResult.failure).state.dragSourceStage = none ∧
      (handleDrop stateConsistent Stage.new PutResult.ok
        FetchResult.failure).putSent = false ∧
      (handleDrop stateConsistent Stage.new PutResult.ok
        FetchResult.failure).fetchSent = false) :=
  ⟨rfl, rfl,
    C6_drop_on_source_is_noop stateConsistent dealA Stage.new PutResult.ok
      FetchResult.failure rfl rfl⟩

/-! Claim C7: loads trust the wire counts instead of recomputing. -/

/-- C7 counterexample: loading a payload whose counts record disagrees
with its buckets leaves counts disagreeing with bucket lengths — the
claim that counts are recomputed from the loaded buckets is false; they
are taken from the wire. -/
theorem C7_load_counterexample :
    (fetchPipelineData stateNoSession
        (FetchResult.success payloadSkewed)).counts Stage.new = 5 ∧
    ((fetchPipelineData stateNoSession
        (FetchResult.success payloadSkewed)).board Stage.new).length = 1 ∧
    (fetchPipelineData stateNoSession
        (FetchResult.success payloadSkewed)).counts Stage.new ≠
      (((fetchPipelineData stateNoSession
        (FetchResult.success payloadSkewed)).board Stage.new).length : Int) := by
  refine ⟨rfl, rfl, ?_⟩
  simp [fetchPipelineData, payloadSkewed, countsNew5, boardNewA]

/-- C7 amended: on every successful board load, the board, counts and the
two aggregates are taken directly from the wire payload's fields, each
through its falsy-or-default fallback; counts are never recomputed from
the loaded buckets, so a payload whose counts disagree with its buckets is
stored as-is. -/
theorem C7_load_takes_wire_counts (s : PageState) (data : PipelinePayload) :
    (fetchPipelineData s (FetchResult.success data)).counts =
      data.counts.getD (fun _ => 0) ∧
    (fetchPipelineData s (FetchResult.success data)).board =
      data.board.getD (fun _ => []) ∧
    (fetchPipelineData s (FetchResult.success data)).totalDeals =
      data.total_deals.getD 0 ∧
    (fetchPipelineData s (FetchResult.success data)).activeDeals =
      data.active_deals.getD 0 :=
  ⟨rfl, rfl, rfl, rfl⟩

/-! Claim C8: a drop with no active session is a no-op. -/

/-- C8: a drop event arriving when no drag session exists (no dragged deal
recorded, or no source stage recorded) mutates no bucket, no count and no
aggregate, issues no network request, and merely re-clears the session. -/
theorem C8_drop_without_session (s : PageState) (t : Stage)
    (put : PutResult) (reload : FetchResult)
    (h : s.draggedDeal = none ∨ s.dragSourceStage = none) :
    (handleDrop s t put reload).state.board = s.board ∧
    (handleDrop s t put reload).state.counts = s.counts ∧
    (handleDrop s t put reload).state.totalDeals = s.totalDeals ∧
    (handleDrop s t put reload).state.activeDeals = s.activeDeals ∧
    (handleDrop s t put reload).state.draggedDeal = none ∧
    (handleDrop s t put reload).state.dragSourceStage = none ∧
    (handleDrop s t put reload).putSent = false ∧
    (handleDrop s t put reload).fetchSent = false := by
  rcases h with h | h
  · simp [handleDrop, handleDropSync, h, clearSession]
  · cases hd : s.draggedDeal <;>
      simp [handleDrop, handleDropSync, hd, h, clearSession]

/-- C8 witness: the sessionless-drop theorem instantiated at the sample
state with no drag session, dropping on Diligence. -/
theorem C8_drop_without_session_witness :
    (stateNoSession.draggedDeal = none ∨
      stateNoSession.dragSourceStage = none) ∧
    ((handleDrop stateNoSession Stage.diligence PutResult.ok
        FetchResult.failure).state.board = stateNoSession.board ∧
      (handleDrop stateNoSession Stage.diligence PutResult.ok
        FetchResult.failure).state.counts = stateNoSession.counts ∧
      (handleDrop stateNoSession Stage.diligence PutResult.ok
        FetchResult.failure).state.totalDeals = stateNoSession.totalDeals ∧
      (handleDrop stateNoSession Stage.diligence PutResult.ok
        FetchResult.failure).state.activeDeals = stateNoSession.activeDeals ∧
      (handleDrop stateNoSession Stage.diligence PutResult.ok
        FetchResult.failure).state.draggedDeal = none ∧
      (handleDrop stateNoSession Stage.diligence PutResult.ok
        FetchResult.failure).state.dragSourceStage = none ∧
      (handleDrop stateNoSession Stage.diligence PutResult.ok
        FetchResult.failure).putSent = false ∧
      (handleDrop stateNoSession Stage.diligence PutResult.ok
        FetchResult.failure).fetchSent = false) :=
  ⟨Or.inl rfl,
    C8_drop_without_session stateNoSession Stage.diligence PutResult.ok
      FetchResult.failure (Or.inl rfl)⟩

/-! Claim C2: a failed commit followed by a successful reload leaves
exactly the fetched snapshot. -/

/-- C2: for a cross-stage drop whose stage-update request fails (non-ok
status or transport error), once the reconciliation fetch succeeds the
board, counts, totalDeals and activeDeals equal exactly the values decoded
from that fetch's payload — no residue of the speculative move survives —
and both requests were indeed issued, with the session cleared. -/
theorem C2_failed_commit_reconciles_to_snapshot (s : PageState)
    (d : PipelineDeal) (src t : Stage) (put : PutResult)
    (data : PipelinePayload) (hd : s.draggedDeal = some d)
    (hs : s.dragSourceStage = some src) (hne : src ≠ t)
    (hput : put ≠ PutResult.ok) :
    (handleDrop s t put (FetchResult.success data)).state.board =
      data.board.getD (fun _ => []) ∧
    (handleDrop s t put (FetchResult.success data)).state.counts =
      data.counts.getD (fun _ => 0) ∧
    (handleDrop s t put (FetchResult.success data)).state.totalDeals =
      data.total_deals.getD 0 ∧
    (handleDrop s t put (FetchResult.success data)).state.activeDeals =
      data.active_deals.getD 0 ∧
    (handleDrop s t put (FetchResult.success data)).state.draggedDeal =
      none ∧
    (handleDrop s t put (FetchResult.success data)).state.dragSourceStage =
      none ∧
    (handleDrop s t put (FetchResult.success data)).putSent = true ∧
    (handleDrop s t put (FetchResult.success data)).fetchSent = true := by
  cases put with
  | ok => exact absurd rfl hput
  | httpError =>
      simp [handleDrop, handleDropSync, hd, hs, hne, fetchPipelineData,
        clearSession]
  | transportError =>
      simp [handleDrop, handleDropSync, hd, hs, hne, fetchPipelineData,
        clearSession]

/-- C2 witness: the reconciliation theorem instantiated at the consistent
sample state, dropping dealA on Diligence, with a failing PUT and the
consistent sample payload as the reload result. -/
theorem C2_failed_commit_witness :
    stateConsistent.draggedDeal = some dealA ∧
    stateConsistent.dragSourceStage = some Stage.new ∧
    Stage.new ≠ Stage.diligence ∧
    PutResult.httpError ≠ PutResult.ok ∧
    ((handleDrop stateConsistent Stage.diligence PutResult.httpError
        (FetchResult.success payloadGood)).state.board =
      payloadGood.board.getD (fun _ => []) ∧
      (handleDrop stateConsistent Stage.diligence PutResult.httpError
        (FetchResult.success payloadGood)).state.counts =
      payloadGood.counts.getD (fun _ => 0) ∧
      (handleDrop stateConsistent Stage.diligence PutResult.httpError
        (FetchResult.success payloadGood)).state.totalDeals =
      payloadGood.total_deals.getD 0 ∧
      (handleDrop stateConsistent Stage.diligence PutResult.httpError
        (FetchResult.success payloadGood)).state.activeDeals =
      payloadGood.active_deals.getD 0 ∧
      (handleDrop stateConsistent Stage.diligence PutResult.httpError
        (FetchResult.success payloadGood)).state.draggedDeal = none ∧
      (handleDrop stateConsistent Stage.diligence PutResult.httpError
        (FetchResult.success payloadGood)).state.dragSourceStage = none ∧
      (handleDrop stateConsistent Stage.diligence PutResult.httpError
        (FetchResult.success payloadGood)).putSent = true ∧
      (handleDrop stateConsistent Stage.diligence PutResult.httpError
        (FetchResult.success payloadGood)).fetchSent = true) :=
  ⟨rfl, rfl, by decide, by decide,
    C2_failed_commit_reconciles_to_snapshot stateConsistent dealA Stage.new
      Stage.diligence PutResult.httpError payloadGood rfl rfl (by decide)
      (by decide)⟩

/-! Claim C9: the reload after a failed commit itself fails. -/

/-- C9: for a cross-stage drop whose stage-update request fails and whose
reconciliation fetch also fails, the final board, counts, totalDeals and
activeDeals are exactly the speculative values produced by the synchronous
optimistic update — the failed reload changes nothing but the loading
flag — and the session is cleared. -/
theorem C9_reload_failure_keeps_speculative (s : PageState)
    (d : PipelineDeal) (src t : Stage) (put : PutResult)
    (hd : s.draggedDeal = some d) (hs : s.dragSourceStage = some src)
    (hne : src ≠ t) (hput : put ≠ PutResult.ok) :
    (handleDrop s t put FetchResult.failure).state.board =
      (handleDropSync s t).1.board ∧
    (handleDrop s t put FetchResult.failure).state.counts =
      (handleDropSync s t).1.counts ∧
    (handleDrop s t put FetchResult.failure).state.totalDeals =
      (handleDropSync s t).1.totalDeals ∧
    (handleDrop s t put FetchResult.failure).state.activeDeals =
      (handleDropSync s t).1.activeDeals ∧
    (handleDrop s t put FetchResult.failure).state.draggedDeal = none ∧
    (handleDrop s t put FetchResult.failure).state.dragSourceStage =
      none ∧
    (handleDrop s t put FetchResult.failure).putSent = true ∧
    (handleDrop s t put FetchResult.failure).fetchSent = true := by
  cases put with
  | ok => exact absurd rfl hput
  | httpError =>
      simp [handleDrop, handleDropSync, hd, hs, hne, fetchPipelineData,
        clearSession]
  | transportError =>
      simp [handleDrop, handleDropSync, hd, hs, hne, fetchPipelineData,
        clearSession]

/-- C9 witness: the reload-failure theorem instantiated at the consistent
sample state, dropping dealA on Diligence with a transport error on the
PUT and a failing reload. -/
theorem C9_reload_failure_witness :
    stateConsistent.draggedDeal = some dealA ∧
    stateConsistent.dragSourceStage = some Stage.new ∧
    Stage.new ≠ Stage.diligence ∧
    PutResult.transportError ≠ PutResult.ok ∧
    ((handleDrop stateConsistent Stage.diligence PutResult.transportError
        FetchResult.failure).state.board =
      (handleDropSync stateConsistent Stage.diligence).1.board ∧
      (handleDrop stateConsistent Stage.diligence PutResult.transportError
        FetchResult.failure).state.counts =
      (handleDropSync stateConsistent Stage.diligence).1.counts ∧
      (handleDrop stateConsistent Stage.diligence PutResult.transportError
        FetchResult.failure).state.totalDeals =
      (handleDropSync stateConsistent Stage.diligence).1.totalDeals ∧
      (handleDrop stateConsistent Stage.diligence PutResult.transportError
        FetchResult.failure).state.activeDeals =
      (handleDropSync stateConsistent Stage.diligence).1.activeDeals ∧
      (handleDrop stateConsistent Stage.diligence PutResult.transportError
        FetchResult.failure).state.draggedDeal = none ∧
      (handleDrop stateConsistent Stage.diligence PutResult.transportError
        FetchResult.failure).state.dragSourceStage = none ∧
      (handleDrop stateConsistent Stage.diligence PutResult.transportError
        FetchResult.failure).putSent = true ∧
      (handleDrop stateConsistent Stage.diligence PutResult.transportError
        FetchResult.failure).fetchSent = true) :=
  ⟨rfl, rfl, by decide, by decide,
    C9_reload_failure_keeps_speculative stateConsistent dealA Stage.new
      Stage.diligence PutResult.transportError rfl rfl (by decide)
      (by decide)⟩

/-! Claim C10: counts stay non-negative through the optimistic update. -/

/-- C10: for a cross-stage drop, if every entry of the counts record is
non-negative before the drop then every entry is non-negative immediately
after the optimistic update; in particular a zero (or missing, modelled as
zero) source count is mapped to zero by the truthy-or-1 fallback, never to
a negative value. -/
theorem C10_counts_stay_nonneg (s : PageState) (d : PipelineDeal)
    (src t : Stage) (hd : s.draggedDeal = some d)
    (hs : s.dragSourceStage = some src) (hne : src ≠ t)
    (hpos : ∀ st, 0 ≤ s.counts st) :
    (∀ st, 0 ≤ (handleDropSync s t).1.counts st) ∧
    (s.counts src = 0 → (handleDropSync s t).1.counts src = 0) := by
  simp only [handleDropSync, hd, hs, hne, if_false, applyOptimistic,
    jsOrInt]
  constructor
  · intro st
    by_cases h1 : st = t
    · subst h1
      have h2 : ¬st = src := fun h => hne (h ▸ rfl)
      have := hpos st
      simp only [if_pos rfl, if_neg h2]
      omega
    · by_cases h2 : st = src
      · subst h2
        have := hpos st
        simp only [if_neg h1, if_pos rfl]
        split <;> omega
      · have := hpos st
        simp only [if_neg h1, if_neg h2]
        omega
  · intro h0
    have h1 : ¬src = t := hne
    simp [if_neg h1, h0]

/-- C10 witness: the non-negativity theorem instantiated at the wire-skewed
sample state (all counts zero), dropping dealA from New on Diligence. -/
theorem C10_counts_stay_nonneg_witness :
    stateZeroCount.draggedDeal = some dealA ∧
    stateZeroCount.dragSourceStage = some Stage.new ∧
    Stage.new ≠ Stage.diligence ∧
    (∀ st, 0 ≤ stateZeroCount.counts st) ∧
    ((∀ st, 0 ≤ (handleDropSync stateZeroCount Stage.diligence).1.counts
        st) ∧
      (stateZeroCount.counts Stage.new = 0 →
        (handleDropSync stateZeroCount
          Stage.diligence).1.counts Stage.new = 0)) :=
  ⟨rfl, rfl, by decide, by decide,
    C10_counts_stay_nonneg stateZeroCount dealA Stage.new Stage.diligence
      rfl rfl (by decide) (by decide)⟩

/-! Claim C3: optimistic visibility of a cross-stage drop. -/

/-- C3 counterexample: in a reachable state whose wire-supplied source
count is zero while the dragged deal does sit in the source bucket, the
optimistic update leaves counts of New at zero instead of decreasing it by
exactly one, so the claim fails as stated. -/
theorem C3_optimistic_counterexample :
    stateZeroCount.draggedDeal = some dealA ∧
    stateZeroCount.dragSourceStage = some Stage.new ∧
    Stage.new ≠ Stage.diligence ∧
    bucketHasId (stateZeroCount.board Stage.new) dealA.analysis_id =
      true ∧
    (handleDropSync stateZeroCount Stage.diligence).1.counts Stage.new =
      0 ∧
    (handleDropSync stateZeroCount Stage.diligence).1.counts Stage.new ≠
      stateZeroCount.counts Stage.new - 1 := by
  refine ⟨rfl, rfl, by decide, by decide, by decide, by decide⟩

/-- C3 amended: immediately after the synchronous optimistic update of a
cross-stage drop, the moved copy of the deal has its stage field set to
the target stage and sits at the end of the target bucket, the dragged
deal's id is absent from the source bucket, and counts of the target has
increased by exactly one; counts of the source has decreased by exactly
one provided the recorded source count is nonzero (a zero or missing
source count is mapped to zero by the truthy-or-1 fallback instead of
being decremented). -/
theorem C3_optimistic_visibility (s : PageState) (d : PipelineDeal)
    (src t : Stage) (hd : s.draggedDeal = some d)
    (hs : s.dragSourceStage = some src) (hne : src ≠ t)
    (hc : s.counts src ≠ 0) :
    ({ d with stage := t } : PipelineDeal).stage = t ∧
    (handleDropSync s t).1.board t =
      s.board t ++ [{ d with stage := t }] ∧
    (∀ x ∈ (handleDropSync s t).1.board src,
      x.analysis_id ≠ d.analysis_id) ∧
    (handleDropSync s t).1.counts src = s.counts src - 1 ∧
    (handleDropSync s t).1.counts t = s.counts t + 1 := by
  have hts : ¬t = src := fun h => hne (h ▸ rfl)
  refine ⟨rfl, ?_, ?_, ?_, ?_⟩
  · simp [handleDropSync, hd, hs, hne, applyOptimistic, if_neg hts]
  · intro x hx
    simp only [handleDropSync, hd, hs, hne, if_false, applyOptimistic,
      if_pos rfl, if_neg hne] at hx
    have := List.of_mem_filter hx
    simpa [bne_iff_ne] using this
  · simp [handleDropSync, hd, hs, hne, applyOptimistic, jsOrInt,
      if_neg hne, hc]
  · simp [handleDropSync, hd, hs, hne, applyOptimistic, if_neg hts]

/-- C3 witness: the amended optimistic-visibility theorem instantiated at
the consistent sample state, dropping dealA from New on Diligence. -/
theorem C3_optimistic_visibility_witness :
    stateConsistent.draggedDeal = some dealA ∧
    stateConsistent.dragSourceStage = some Stage.new ∧
    Stage.new ≠ Stage.diligence ∧
    stateConsistent.counts Stage.new ≠ 0 ∧
    (({ dealA with stage := Stage.diligence } : PipelineDeal).stage =
      Stage.diligence ∧
      (handleDropSync stateConsistent Stage.diligence).1.board
          Stage.diligence =
        stateConsistent.board Stage.diligence ++
          [{ dealA with stage := Stage.diligence }] ∧
      (∀ x ∈ (handleDropSync stateConsistent Stage.diligence).1.board
          Stage.new, x.analysis_id ≠ dealA.analysis_id) ∧
      (handleDropSync stateConsistent Stage.diligence).1.counts Stage.new =
        stateConsistent.counts Stage.new - 1 ∧
      (handleDropSync stateConsistent Stage.diligence).1.counts
          Stage.diligence =
        stateConsistent.counts Stage.diligence + 1) :=
  ⟨rfl, rfl, by decide, by decide,
    C3_optimistic_visibility stateConsistent dealA Stage.new
      Stage.diligence rfl rfl (by decide) (by decide)⟩

/-! Claim C1: a drop whose deal is missing from the source bucket. -/

/-- Filtering a bucket by a deal id that no element of the bucket carries
keeps the bucket unchanged. -/
theorem filter_missing_id_eq_self (l : List PipelineDeal) (i : String)
    (h : bucketHasId l i = false) :
    l.filter (fun x => x.analysis_id != i) = l := by
  rw [List.filter_eq_self]
  intro a ha
  simp only [bucketHasId, List.any_eq_false] at h
  simpa [bne_iff_ne] using h a ha

/-- C1 counterexample: from the stale-session sample state (dealA recorded
as dragged from New, but the New bucket empty), the drop is not a no-op
and signals no error: the target bucket is modified, the target count
changes, and a stage-update request is issued. -/
theorem C1_stale_session_counterexample :
    stateStale.draggedDeal = some dealA ∧
    stateStale.dragSourceStage = some Stage.new ∧
    bucketHasId (stateStale.board Stage.new) dealA.analysis_id = false ∧
    (handleDrop stateStale Stage.diligence PutResult.ok
        FetchResult.failure).state.board Stage.diligence ≠
      stateStale.board Stage.diligence ∧
    (handleDrop stateStale Stage.diligence PutResult.ok
        FetchResult.failure).state.counts Stage.diligence ≠
      stateStale.counts Stage.diligence ∧
    (handleDrop stateStale Stage.diligence PutResult.ok
        FetchResult.failure).putSent = true := by
  refine ⟨rfl, rfl, by decide, by decide, by decide, by decide⟩

/-- C1 amended: there is no stale-session check. When the dragged deal is
absent from the recorded source bucket, a cross-stage drop still proceeds:
the source bucket is unchanged only because the filter removes nothing,
the stage-rewritten deal is appended to the target bucket, both counts are
adjusted (the source through the truthy-or-1 fallback), the stage-update
request is issued, and the session is cleared in the finally clause — no
error is signalled and the move attempt is not discarded. -/
theorem C1_stale_session_still_moves (s : PageState) (d : PipelineDeal)
    (src t : Stage) (put : PutResult) (reload : FetchResult)
    (hd : s.draggedDeal = some d) (hs : s.dragSourceStage = some src)
    (hne : src ≠ t)
    (habs : bucketHasId (s.board src) d.analysis_id = false) :
    (handleDropSync s t).2 = true ∧
    (handleDropSync s t).1.board src = s.board src ∧
    (handleDropSync s t).1.board t =
      s.board t ++ [{ d with stage := t }] ∧
    (handleDropSync s t).1.counts src = jsOrInt (s.counts src) 1 - 1 ∧
    (handleDropSync s t).1.counts t = s.counts t + 1 ∧
    (handleDrop s t put reload).putSent = true ∧
    (handleDrop s t put reload).state.draggedDeal = none ∧
    (handleDrop s t put reload).state.dragSourceStage = none := by
  have hts : ¬t = src := fun h => hne (h ▸ rfl)
  refine ⟨?_, ?_, ?_, ?_, ?_, ?_, ?_, ?_⟩
  · simp [handleDropSync, hd, hs, hne]
  · simp only [handleDropSync, hd, hs, hne, if_false, applyOptimistic]
    simp [if_neg hne, filter_missing_id_eq_self _ _ habs]
  · simp only [handleDropSync, hd, hs, hne, if_false, applyOptimistic]
    simp [if_neg hts]
  · simp only [handleDropSync, hd, hs, hne, if_false, applyOptimistic]
    simp [if_neg hne]
  · simp only [handleDropSync, hd, hs, hne, if_false, applyOptimistic]
    simp [if_neg hts]
  · cases put <;> simp [handleDrop, handleDropSync, hd, hs, hne]
  · cases put <;>
      cases reload <;>
        simp [handleDrop, handleDropSync, hd, hs, hne, clearSession,
          fetchPipelineData]
  · cases put <;>
      cases reload <;>
        simp [handleDrop, handleDropSync, hd, hs, hne, clearSession,
          fetchPipelineData]

/-- C1 witness: the no-stale-check theorem instantiated at the
stale-session sample state, dropping on Diligence with a successful PUT. -/
theorem C1_stale_session_witness :
    stateStale.draggedDeal = some dealA ∧
    stateStale.dragSourceStage = some Stage.new ∧
    Stage.new ≠ Stage.diligence ∧
    bucketHasId (stateStale.board Stage.new) dealA.analysis_id = false ∧
    ((handleDropSync stateStale Stage.diligence).2 = true ∧
      (handleDropSync stateStale Stage.diligence).1.board Stage.new =
        stateStale.board Stage.new ∧
      (handleDropSync stateStale Stage.diligence).1.board Stage.diligence =
        stateStale.board Stage.diligence ++
          [{ dealA with stage := Stage.diligence }] ∧
      (handleDropSync stateStale Stage.diligence).1.counts Stage.new =
        jsOrInt (stateStale.counts Stage.new) 1 - 1 ∧
      (handleDropSync stateStale Stage.diligence).1.counts Stage.diligence =
        stateStale.counts Stage.diligence + 1 ∧
      (handleDrop stateStale Stage.diligence PutResult.ok
        FetchResult.failure).putSent = true ∧
      (handleDrop stateStale Stage.diligence PutResult.ok
        FetchResult.failure).state.draggedDeal = none ∧
      (handleDrop stateStale Stage.diligence PutResult.ok
        FetchResult.failure).state.dragSourceStage = none) :=
  ⟨rfl, rfl, by decide, by decide,
    C1_stale_session_still_moves stateStale dealA Stage.new Stage.diligence
      PutResult.ok FetchResult.failure rfl rfl (by decide) (by decide)⟩

/-! Claim C4: the aggregates across the optimistic update. -/

/-- C4 counterexample: from the fully consistent sample state (both
aggregate invariants hold before the drop), dropping dealA from New on the
terminal stage Closed Won leaves activeDeals at one while the sum of
counts over non-terminal stages is zero: the optimistic update does not
recompute the aggregates and the activeDeals invariant fails immediately
after it. -/
theorem C4_aggregates_counterexample :
    totalCounts stateConsistent.counts = stateConsistent.totalDeals ∧
    activeCounts stateConsistent.counts = stateConsistent.activeDeals ∧
    (handleDropSync stateConsistent Stage.closed_won).1.activeDeals = 1 ∧
    activeCounts
      (handleDropSync stateConsistent Stage.closed_won).1.counts = 0 ∧
    activeCounts
        (handleDropSync stateConsistent Stage.closed_won).1.counts ≠
      (handleDropSync stateConsistent Stage.closed_won).1.activeDeals := by
  refine ⟨by decide, by decide, by decide, by decide, by decide⟩

/-- C4 amended: the optimistic update of a cross-stage drop leaves
totalDeals and activeDeals exactly unchanged — the aggregates are not
recomputed. When the recorded source count is nonzero, the unchanged
totalDeals still equals the sum of all counts if it did before the drop;
the corresponding activeDeals identity is not maintained (it fails for a
drop between an active and a terminal stage, as the counterexample
shows) and is restored only by the next load. -/
theorem C4_aggregates_not_recomputed (s : PageState) (d : PipelineDeal)
    (src t : Stage) (hd : s.draggedDeal = some d)
    (hs : s.dragSourceStage = some src) (hne : src ≠ t)
    (hc : s.counts src ≠ 0)
    (htot : s.totalDeals = totalCounts s.counts) :
    (handleDropSync s t).1.totalDeals = s.totalDeals ∧
    (handleDropSync s t).1.activeDeals = s.activeDeals ∧
    (handleDropSync s t).1.totalDeals =
      totalCounts (handleDropSync s t).1.counts := by
  refine ⟨?_, ?_, ?_⟩
  · simp [handleDropSync, hd, hs, hne, applyOptimistic]
  · simp [handleDropSync, hd, hs, hne, applyOptimistic]
  · simp only [handleDropSync, hd, hs, hne, if_false, applyOptimistic]
    rw [htot]
    cases src <;> cases t <;>
      simp_all [totalCounts, allStages, jsOrInt] <;> omega

/-- C4 witness: the aggregates theorem instantiated at the consistent
sample state, dropping dealA from New on Diligence. -/
theorem C4_aggregates_witness :
    stateConsistent.draggedDeal = some dealA ∧
    stateConsistent.dragSourceStage = some Stage.new ∧
    Stage.new ≠ Stage.diligence ∧
    stateConsistent.counts Stage.new ≠ 0 ∧
    stateConsistent.totalDeals = totalCounts stateConsistent.counts ∧
    ((handleDropSync stateConsistent Stage.diligence).1.totalDeals =
        stateConsistent.totalDeals ∧
      (handleDropSync stateConsistent Stage.diligence).1.activeDeals =
        stateConsistent.activeDeals ∧
      (handleDropSync stateConsistent Stage.diligence).1.totalDeals =
        totalCounts
          (handleDropSync stateConsistent Stage.diligence).1.counts) :=
  ⟨rfl, rfl, by decide, by decide, by decide,
    C4_aggregates_not_recomputed stateConsistent dealA Stage.new
      Stage.diligence rfl rfl (by decide) (by decide) (by decide)⟩

end DealFlow
